import Mathlib

namespace Gamestonk

/-!
Shallow embedding of gamestonk_terminal/economy/economy_controller.py and
gamestonk_terminal/options/yfinance_view.py.

Python strings stay String and token lists stay List String.  Side effects
(prints, collaborator calls, file removals, chart-drawing operations) are
recorded as explicit effect values that the theorems inspect.  External
collaborator behaviour (data-provider calls, the nested report menu) is
supplied through an explicit environment value, so that theorems can
quantify over collaborator success and failure.
-/

/-- EconomyController.d_GROUPS (economy_controller.py, lines 34-50),
including the source quirk that the key is "real Estate" with a capital E. -/
def d_GROUPS : List (String × String) :=
  [("sector", "Sector"),
   ("industry", "Industry"),
   ("basic materials", "Industry (Basic Materials)"),
   ("communication services", "Industry (Communication Services)"),
   ("consumer cyclical", "Industry (Consumer Cyclical)"),
   ("consumer defensive", "Industry (Consumer Defensive)"),
   ("energy", "Industry (Energy)"),
   ("financial", "Industry (Financial)"),
   ("healthcare", "Industry (Healthcare)"),
   ("industrials", "Industry (Industrials)"),
   ("real Estate", "Industry (Real Estate)"),
   ("technology", "Industry (Technology)"),
   ("utilities", "Industry (Utilities)"),
   ("country", "Country (U.S. listed stocks only)"),
   ("capitalization", "Capitalization")]

/-- EconomyController.CHOICES_COMMANDS (lines 60-78); the source lists
"futures" twice and lists "industry" even though no call_industry method
exists. Both quirks are preserved. -/
def CHOICES_COMMANDS : List String :=
  ["feargreed", "events", "overview", "indices", "futures", "usbonds",
   "glbonds", "futures", "currencies", "search", "series", "valuation",
   "performance", "spectrum", "map", "rtps", "industry"]

/-- EconomyController.CHOICES_MENUS (lines 80-82). -/
def CHOICES_MENUS : List String := ["report"]

/-- EconomyController.CHOICES (lines 52-85): administrative commands, then
the domain commands, then the submenu names. -/
def CHOICES : List String :=
  ["cls", "?", "help", "q", "quit"] ++ CHOICES_COMMANDS ++ CHOICES_MENUS

/-- Stand-in for the text printed by EconomyController.print_help
(lines 95-132).  The full literal is abbreviated to its banner line; the
claims only need the identity of the printed text, not its content. -/
def helpText : String := ">> ECONOMY <<"

/-- Helper for tokenize: scan the characters, accumulating the current word
in reverse; spaces close the current word and empty words are dropped. -/
def tokenizeAux : List Char → List Char → List String
  | [], acc => if acc.isEmpty then [] else [String.mk acc.reverse]
  | ch :: cs, acc =>
      if ch = ' ' then
        if acc.isEmpty then tokenizeAux cs []
        else String.mk acc.reverse :: tokenizeAux cs []
      else tokenizeAux cs (ch :: acc)

/-- Python str.split() on the input line (whitespace split, empty pieces
dropped), as used by switch (line 150). -/
def tokenize (s : String) : List String :=
  tokenizeAux s.data []

/-- Nonempty all-digit character list (the regex fragment for one or more
digits). -/
def isDigits (cs : List Char) : Bool := !cs.isEmpty && cs.all Char.isDigit

/-- The regex fragment digits* "." digits+ used by the argparse
negative-number matcher. -/
def dotFracAux : List Char → Bool
  | [] => false
  | c :: cs => if c = '.' then isDigits cs else (c.isDigit && dotFracAux cs)

/-- argparse _negative_number_matcher: a leading "-" followed by digits+ or
by digits* "." digits+.  Such tokens are classified as positionals because
econ_parser registers no negative-number-looking option strings. -/
def negNumberLike (s : String) : Bool :=
  match s.data with
  | c :: rest => c == '-' && (isDigits rest || dotFracAux rest)
  | [] => false

/-- argparse _parse_optional classification for a parser with no registered
optional arguments: a token is option-like when it starts with the prefix
character "-", is not the bare "-", and does not look like a negative
number.  Option-like tokens are routed to the extras of parse_known_args;
everything else can be consumed by a positional. -/
def optionLike (s : String) : Bool :=
  match s.data with
  | c :: cs => c == '-' && !cs.isEmpty && !negNumberLike s
  | [] => false

/-- argparse consumes the first "--" token as the option/positional
separator and drops it from the result. -/
def dropFirstDdash : List String → List String
  | [] => []
  | t :: rest => if t = "--" then rest else t :: dropFirstDdash rest

/-- Scan of argparse parse_known_args for econ_parser: walking the tokens,
the first "--" is dropped and every later token is classified positional
(the Bool argument records whether "--" was seen); before it, option-like
tokens are collected into the extras; the first positionally classified
token is bound to the cmd positional, and the remaining tokens (minus a
first "--") become the rest of the extras.  none models the missing-cmd
case. -/
def econScan : List String → Bool → Option (String × List String)
  | [], _ => none
  | t :: rest, false =>
      if t = "--" then econScan rest true
      else if optionLike t then
        match econScan rest false with
        | some (c, ex) => some (c, t :: ex)
        | none => none
      else some (t, dropFirstDdash rest)
  | t :: rest, true => some (t, rest)

/-- argparse parse_known_args for econ_parser (lines 89-93): one required
positional cmd restricted to CHOICES; unknown option-like tokens and
unconsumed positionals are returned unparsed as other_args.  none models
the SystemExit argparse raises when no token can be bound to cmd or when
the bound token is not a registered choice.  (Semantics: unknown
option-like tokens go to the extras and the positional binds the first
token classified as positional, so an input like "-x quit" binds
cmd="quit" with extras ["-x"].) -/
def econParseCmd (tokens : List String) : Option (String × List String) :=
  match econScan tokens false with
  | some (c, extras) => if c ∈ CHOICES then some (c, extras) else none
  | none => none

/-- Decimal value of a digit list; none as soon as a non-digit appears. -/
def decValAux : List Char → Nat → Option Nat
  | [], n => some n
  | ch :: cs, n =>
      if ch.isDigit then decValAux cs (10 * n + (ch.toNat - 48)) else none

/-- Modelled from the spec: check_positive (helper_funcs, not in src/) is
the positive-integer constraint of section 4.1 -- it accepts a decimal
integer token strictly greater than zero and rejects everything else. -/
def check_positive (s : String) : Option Nat :=
  match s.data with
  | [] => none
  | cs =>
      match decValAux cs 0 with
      | some n => if 0 < n then some n else none
      | none => none

/-- Split a character list at dashes (helper for valid_date). -/
def splitOnDashAux : List Char → List Char → List (List Char)
  | [], acc => [acc.reverse]
  | ch :: cs, acc =>
      if ch = Char.ofNat 45 then acc.reverse :: splitOnDashAux cs []
      else splitOnDashAux cs (ch :: acc)

/-- Modelled from the spec: valid_date (helper_funcs, not in src/) is the
ISO YYYY-MM-DD date constraint of sections 4.1 and 6. -/
def valid_date (s : String) : Bool :=
  match splitOnDashAux s.data [] with
  | [y, m, d] =>
      (y.length == 4 && m.length == 2 && d.length == 2) &&
      (match decValAux y 0, decValAux m 0, decValAux d 0 with
       | some _, some mv, some dv =>
           decide (1 ≤ mv) && decide (mv ≤ 12) && decide (1 ≤ dv) && decide (dv ≤ 31)
       | _, _, _ => false)
  | _ => false

/-- Python membership "-" in s: a substring test, which for the one-character
needle is a character membership test. -/
def containsDash (s : String) : Bool := s.data.contains (Char.ofNat 45)

/-- Whether a token is flag-prefixed, i.e. begins with a dash.  This is the
condition the spec describes for the implicit first-token shorthand; the
source instead tests containsDash. -/
def flagPrefixed (s : String) : Bool :=
  match s.data with
  | [] => false
  | c :: _ => c = Char.ofNat 45

/-- The repeated handler snippet (for example lines 226-228): when other_args
is nonempty and its first token has no dash anywhere in it, the primary
short flag is prepended.  Note the source tests substring containment of
"-", not a flag-shaped leading dash. -/
def implicitFirstToken (flag : String) : List String → List String
  | [] => []
  | t :: rest => if containsDash t then t :: rest else flag :: t :: rest

/-- The group-command snippet other_args = [other_args[0], " ".join(other_args[1:])]
(for example line 534), applied whenever other_args is nonempty. -/
def joinTail : List String → List String
  | [] => []
  | t :: rest => [t, String.intercalate " " rest]

/-- Export choice lists shared by the tabular commands. -/
def tabularExports : List String := ["csv", "json", "xlsx"]

/-- Export choice lists shared by the chart commands. -/
def imageExports : List String := ["png", "jpg", "pdf", "svg"]

/-- The conditional --export choices of call_rtps (lines 661-670). -/
def rtpsExportChoices (other_args : List String) : List String :=
  if "--raw" ∈ other_args then tabularExports else imageExports

/-- The conditional --export choices of call_series (lines 714-723). -/
def seriesExportChoices (other_args : List String) : List String :=
  if "--raw" ∈ other_args then tabularExports else imageExports

/-- Modelled from the spec: parse_known_args_and_warn (helper_funcs, not in
src/) prints a diagnostic and yields no namespace when validation fails,
never raising to the caller (section 4.1); the handlers then return without
calling their collaborator.  This string stands for the diagnostic text. -/
def validatorDiagnostic : String := "<argument validation diagnostic>"

/-- Parsed namespace of the events parser (lines 180-224).
The Python dest "export" is spelled exportFmt here because export is a
reserved word in Lean. -/
structure EventsNS where
  country : String := "US"
  num : Nat := 10
  impact : String := "all"
  exportFmt : String := ""
  deriving DecidableEq

def eventsCountries : List String :=
  ["NZ", "AU", "ERL", "CA", "EU", "US", "JP", "CN", "GB", "CH"]

def eventsImpacts : List String := ["low", "medium", "high", "all"]

/-- Token scan for the events parser.  Unknown tokens and missing or
out-of-choice values fail the parse, following the spec-modelled validator
semantics (unknown flags fail with a diagnostic, section 4.1). -/
def parseEventsAux : List String → EventsNS → Option EventsNS
  | [], ns => some ns
  | _ :: [], _ => none
  | t :: w :: rest, ns =>
      if t = "-c" ∨ t = "--country" then
        if w ∈ eventsCountries then parseEventsAux rest { ns with country := w }
        else none
      else if t = "-n" ∨ t = "--num" then
        match check_positive w with
        | some m => parseEventsAux rest { ns with num := m }
        | none => none
      else if t = "-i" ∨ t = "--impact" then
        if w ∈ eventsImpacts then parseEventsAux rest { ns with impact := w }
        else none
      else if t = "--export" then
        if w ∈ tabularExports then parseEventsAux rest { ns with exportFmt := w }
        else none
      else none

def parseEvents (tokens : List String) : Option EventsNS :=
  parseEventsAux tokens {}

/-- Parsed namespace of the feargreed parser (lines 246-273); the indicator
flag has no default and stays none when absent. -/
structure FeargreedNS where
  indicator : Option String := none
  exportFmt : String := ""
  deriving DecidableEq

def feargreedIndicators : List String :=
  ["jbd", "mv", "pco", "mm", "sps", "spb", "shd", "index"]

def parseFeargreedAux : List String → FeargreedNS → Option FeargreedNS
  | [], ns => some ns
  | "-i" :: v :: rest, ns =>
      if v ∈ feargreedIndicators then parseFeargreedAux rest { ns with indicator := some v } else none
  | "--indicator" :: v :: rest, ns =>
      if v ∈ feargreedIndicators then parseFeargreedAux rest { ns with indicator := some v } else none
  | "--export" :: v :: rest, ns =>
      if v ∈ imageExports then parseFeargreedAux rest { ns with exportFmt := v } else none
  | _, _ => none

def parseFeargreed (tokens : List String) : Option FeargreedNS :=
  parseFeargreedAux tokens {}

/-- Parsed namespace of the six Wall St. Journal parsers (overview, indices,
futures, usbonds, glbonds, currencies, lines 291-457), which all declare a
single tabular --export flag. -/
structure ExportNS where
  exportFmt : String := ""
  deriving DecidableEq

def parseExportOnlyAux : List String → ExportNS → Option ExportNS
  | [], ns => some ns
  | "--export" :: v :: rest, ns =>
      if v ∈ tabularExports then parseExportOnlyAux rest { ns with exportFmt := v } else none
  | _, _ => none

def parseExportOnly (tokens : List String) : Option ExportNS :=
  parseExportOnlyAux tokens {}

/-- Parsed namespace of the map parser (lines 460-489). -/
structure MapNS where
  s_period : String := "1d"
  s_type : String := "sp500"
  deriving DecidableEq

def mapPeriods : List String := ["1d", "1w", "1m", "3m", "6m", "1y"]

def mapTypes : List String := ["sp500", "world", "full", "etf"]

def parseMapAux : List String → MapNS → Option MapNS
  | [], ns => some ns
  | "-p" :: v :: rest, ns =>
      if v ∈ mapPeriods then parseMapAux rest { ns with s_period := v } else none
  | "--period" :: v :: rest, ns =>
      if v ∈ mapPeriods then parseMapAux rest { ns with s_period := v } else none
  | "-t" :: v :: rest, ns =>
      if v ∈ mapTypes then parseMapAux rest { ns with s_type := v } else none
  | "--type" :: v :: rest, ns =>
      if v ∈ mapTypes then parseMapAux rest { ns with s_type := v } else none
  | _, _ => none

def parseMap (tokens : List String) : Option MapNS :=
  parseMapAux tokens {}

/-- Parsed namespace of the valuation, performance and spectrum parsers
(lines 503-636): a group restricted to the d_GROUPS keys and an --export
flag whose choices and default group differ per command. -/
structure GroupNS where
  group : String
  exportFmt : String := ""
  deriving DecidableEq

def parseGroupAux (exports : List String) : List String → GroupNS → Option GroupNS
  | [], ns => some ns
  | "-g" :: v :: rest, ns =>
      if (d_GROUPS.lookup v).isSome then parseGroupAux exports rest { ns with group := v } else none
  | "--group" :: v :: rest, ns =>
      if (d_GROUPS.lookup v).isSome then parseGroupAux exports rest { ns with group := v } else none
  | "--export" :: v :: rest, ns =>
      if v ∈ exports then parseGroupAux exports rest { ns with exportFmt := v } else none
  | _, _ => none

def parseGroup (defaultGroup : String) (exports : List String)
    (tokens : List String) : Option GroupNS :=
  parseGroupAux exports tokens { group := defaultGroup }

/-- Parsed namespace of the rtps parser (lines 646-670). -/
structure RtpsNS where
  raw : Bool := false
  exportFmt : String := ""
  deriving DecidableEq

def parseRtpsAux (exports : List String) : List String → RtpsNS → Option RtpsNS
  | [], ns => some ns
  | "--raw" :: rest, ns => parseRtpsAux exports rest { ns with raw := true }
  | "--export" :: v :: rest, ns =>
      if v ∈ exports then parseRtpsAux exports rest { ns with exportFmt := v } else none
  | _, _ => none

def parseRtps (exports : List String) (tokens : List String) : Option RtpsNS :=
  parseRtpsAux exports tokens {}

/-- Accumulator for the series parser (lines 686-723); series_id is
required (the -h escape hatch of the source is not modelled), so it is an
Option during the scan. -/
structure SeriesAcc where
  series_id : Option String := none
  start_date : String := "2019-01-01"
  raw : Bool := false
  exportFmt : String := ""
  deriving DecidableEq

/-- Parsed namespace of the series parser after the required check. -/
structure SeriesNS where
  series_id : String
  start_date : String := "2019-01-01"
  raw : Bool := false
  exportFmt : String := ""
  deriving DecidableEq

/-- Token scan for the series parser.  A flag expecting a value refuses an
option-like next token, as argparse does (expected-one-argument error); for
the constrained flags the value checks subsume that refusal, so only the
free-string id flag carries the explicit guard.  The --raw switch consumes
no value. -/
def parseSeriesAux (exports : List String) : List String → SeriesAcc → Option SeriesAcc
  | [], acc => some acc
  | t :: [], acc => if t = "--raw" then some { acc with raw := true } else none
  | t :: w :: rest, acc =>
      if t = "-i" ∨ t = "--id" then
        if optionLike w then none
        else parseSeriesAux exports rest { acc with series_id := some w }
      else if t = "-s" then
        if valid_date w then parseSeriesAux exports rest { acc with start_date := w }
        else none
      else if t = "--raw" then parseSeriesAux exports (w :: rest) { acc with raw := true }
      else if t = "--export" then
        if w ∈ exports then parseSeriesAux exports rest { acc with exportFmt := w }
        else none
      else none

def parseSeries (exports : List String) (tokens : List String) : Option SeriesNS :=
  match parseSeriesAux exports tokens {} with
  | some acc =>
      match acc.series_id with
      | some i =>
          some { series_id := i, start_date := acc.start_date,
                 raw := acc.raw, exportFmt := acc.exportFmt }
      | none => none
  | none => none

/-- Accumulator for the search parser (lines 745-768); series_term is
required. -/
structure SearchAcc where
  series_term : Option String := none
  num : Nat := 5
  deriving DecidableEq

/-- Parsed namespace of the search parser after the required check. -/
structure SearchNS where
  series_term : String
  num : Nat := 5
  deriving DecidableEq

/-- Token scan for the search parser; the free-string series term refuses
an option-like value, as argparse does. -/
def parseSearchAux : List String → SearchAcc → Option SearchAcc
  | [], acc => some acc
  | _ :: [], _ => none
  | t :: w :: rest, acc =>
      if t = "-s" ∨ t = "--series" then
        if optionLike w then none
        else parseSearchAux rest { acc with series_term := some w }
      else if t = "-n" ∨ t = "--num" then
        match check_positive w with
        | some m => parseSearchAux rest { acc with num := m }
        | none => none
      else none

def parseSearch (tokens : List String) : Option SearchNS :=
  match parseSearchAux tokens {} with
  | some acc =>
      match acc.series_term with
      | some t => some { series_term := t, num := acc.num }
      | none => none
  | none => none

/-- A call made to an external data or rendering collaborator: the fully
qualified function and its keyword arguments rendered as strings. -/
structure Collab where
  fn : String
  args : List (String × String)
  deriving DecidableEq

/-- Environment supplying the behaviour of the external world.
collab is the outcome of the one external data-provider or rendering call
a domain handler makes (error carries the exception text).
reportMenu is modelled from the spec: report_controller.menu (economy/report,
not in src/) is the nested report menu loop; ok false is its ExitMenu
return, ok true its ExitProgram return, ok none a normal (None) return, and
error an exception escaping it. -/
structure Ext where
  collab : Except String Unit
  reportMenu : Except String (Option Bool)

/-- Effects and result of one handler invocation.  printed records print
arguments, collabCalls the collaborator calls made, removed the file names
passed to os.remove, raised an exception escaping the handler, and ret the
Python return value (none = None, some false = False, some true = True). -/
structure HOut where
  printed : List String := []
  collabCalls : List Collab := []
  removed : List String := []
  raised : Option String := none
  ret : Option Bool := none
  deriving DecidableEq

/-- The try/except Exception body shared by the domain handlers: the
collaborator call is attempted; on success the remaining statements of the
try block (afterOk) run; on an exception the handler prints it (print(e, "\n"))
and returns None -- nothing escapes. -/
def attemptCollab (ext : Ext) (c : Collab) (afterOk : HOut) : HOut :=
  match ext.collab with
  | .ok _ => { afterOk with collabCalls := c :: afterOk.collabCalls }
  | .error e => { collabCalls := [c], printed := [e] }

/-- Python bool rendered as a string argument. -/
def pyBool (b : Bool) : String := if b then "True" else "False"

/-- Python None or a string, rendered as a string argument. -/
def optStr : Option String → String
  | some s => s
  | none => "None"

/-- call_help (lines 166-168). -/
def call_help (_ext : Ext) (_other : List String) : HOut :=
  { printed := [helpText] }

/-- call_q (lines 170-172): returns False, the quit-menu signal. -/
def call_q (_ext : Ext) (_other : List String) : HOut :=
  { ret := some false }

/-- call_quit (lines 174-176): returns True, the quit-program signal. -/
def call_quit (_ext : Ext) (_other : List String) : HOut :=
  { ret := some true }

/-- call_events (lines 178-242). -/
def call_events (ext : Ext) (other_args : List String) : HOut :=
  match parseEvents (implicitFirstToken "-c" other_args) with
  | none => { printed := [validatorDiagnostic] }
  | some ns =>
      attemptCollab ext
        { fn := "finnhub_view.economy_calendar_events",
          args := [("country", ns.country), ("num", toString ns.num),
                   ("impact", ns.impact), ("export", ns.exportFmt)] } {}

/-- call_feargreed (lines 244-289). -/
def call_feargreed (ext : Ext) (other_args : List String) : HOut :=
  match parseFeargreed (implicitFirstToken "-i" other_args) with
  | none => { printed := [validatorDiagnostic] }
  | some ns =>
      attemptCollab ext
        { fn := "cnn_view.fear_and_greed_index",
          args := [("indicator", optStr ns.indicator), ("export", ns.exportFmt)] } {}

/-- Shared shape of the six Wall St. Journal handlers (lines 291-457): a
tabular --export parse followed by one display call. -/
def exportOnlyHandler (fn : String) (ext : Ext) (other_args : List String) : HOut :=
  match parseExportOnly other_args with
  | none => { printed := [validatorDiagnostic] }
  | some ns =>
      attemptCollab ext { fn := fn, args := [("export", ns.exportFmt)] } {}

/-- call_overview (lines 291-317). -/
def call_overview (ext : Ext) (other_args : List String) : HOut :=
  exportOnlyHandler "wsj_view.display_overview" ext other_args

/-- call_indices (lines 319-345). -/
def call_indices (ext : Ext) (other_args : List String) : HOut :=
  exportOnlyHandler "wsj_view.display_indices" ext other_args

/-- call_futures (lines 347-373). -/
def call_futures (ext : Ext) (other_args : List String) : HOut :=
  exportOnlyHandler "wsj_view.display_futures" ext other_args

/-- call_usbonds (lines 375-401). -/
def call_usbonds (ext : Ext) (other_args : List String) : HOut :=
  exportOnlyHandler "wsj_view.display_usbonds" ext other_args

/-- call_glbonds (lines 403-429). -/
def call_glbonds (ext : Ext) (other_args : List String) : HOut :=
  exportOnlyHandler "wsj_view.display_glbonds" ext other_args

/-- call_currencies (lines 431-457). -/
def call_currencies (ext : Ext) (other_args : List String) : HOut :=
  exportOnlyHandler "wsj_view.display_currencies" ext other_args

/-- call_map (lines 459-501). -/
def call_map (ext : Ext) (other_args : List String) : HOut :=
  match parseMap other_args with
  | none => { printed := [validatorDiagnostic] }
  | some ns =>
      attemptCollab ext
        { fn := "finviz_view.map_sp500_view",
          args := [("period", ns.s_period), ("map_type", ns.s_type)] } {}

/-- Preprocessing shared by valuation, performance and spectrum: the
implicit -g shorthand followed by joining the argument tail into a single
token (lines 530-534, 576-580, 622-626). -/
def groupPreprocess (other_args : List String) : List String :=
  joinTail (implicitFirstToken "-g" other_args)

/-- The body shared by valuation, performance and spectrum after parsing:
self.d_GROUPS[ns_parser.group] (a KeyError if absent, caught by the
handler's except) followed by the finviz_view.view_group_data call with the
given data_type and export argument; afterOk are the statements after the
collaborator call (the os.remove of spectrum). -/
def groupDataCall (ext : Ext) (dataType exportArg : String) (ns : GroupNS)
    (afterOk : HOut) : HOut :=
  match d_GROUPS.lookup ns.group with
  | none => { printed := ["KeyError"] }
  | some title =>
      attemptCollab ext
        { fn := "finviz_view.view_group_data",
          args := [("s_group", title), ("data_type", dataType),
                   ("export", exportArg)] }
        afterOk

/-- call_valuation (lines 503-547).  Note that its default group "Sector" is
not a d_GROUPS key, so a flagless invocation raises a KeyError at the
d_GROUPS lookup, caught by the handler. -/
def call_valuation (ext : Ext) (other_args : List String) : HOut :=
  match parseGroup "Sector" tabularExports (groupPreprocess other_args) with
  | none => { printed := [validatorDiagnostic] }
  | some ns => groupDataCall ext "valuation" ns.exportFmt ns {}

/-- call_performance (lines 549-593); same default-group quirk as
call_valuation. -/
def call_performance (ext : Ext) (other_args : List String) : HOut :=
  match parseGroup "Sector" tabularExports (groupPreprocess other_args) with
  | none => { printed := [validatorDiagnostic] }
  | some ns => groupDataCall ext "performance" ns.exportFmt ns {}

/-- call_spectrum (lines 595-642): the collaborator is always called with
export="" regardless of the parsed --export value, and on success the file
named after the raw group key plus ".jpg" is removed from the working
directory (lines 632-639). -/
def call_spectrum (ext : Ext) (other_args : List String) : HOut :=
  match parseGroup "sector" imageExports (groupPreprocess other_args) with
  | none => { printed := [validatorDiagnostic] }
  | some ns => groupDataCall ext "spectrum" "" ns { removed := [ns.group ++ ".jpg"] }

/-- call_rtps (lines 644-682). -/
def call_rtps (ext : Ext) (other_args : List String) : HOut :=
  match parseRtps (rtpsExportChoices other_args) other_args with
  | none => { printed := [validatorDiagnostic] }
  | some ns =>
      attemptCollab ext
        { fn := "alphavantage_view.realtime_performance_sector",
          args := [("raw", pyBool ns.raw), ("export", ns.exportFmt)] } {}

/-- call_series (lines 684-741): the --export choices are computed from the
raw token list before the implicit -i shorthand runs. -/
def call_series (ext : Ext) (other_args : List String) : HOut :=
  match parseSeries (seriesExportChoices other_args)
      (implicitFirstToken "-i" other_args) with
  | none => { printed := [validatorDiagnostic] }
  | some ns =>
      attemptCollab ext
        { fn := "fred_view.display_series",
          args := [("series", ns.series_id), ("start_date", ns.start_date),
                   ("raw", pyBool ns.raw), ("export", ns.exportFmt)] } {}

/-- call_search (lines 743-784). -/
def call_search (ext : Ext) (other_args : List String) : HOut :=
  match parseSearch (implicitFirstToken "-s" other_args) with
  | none => { printed := [validatorDiagnostic] }
  | some ns =>
      attemptCollab ext
        { fn := "fred_view.notes",
          args := [("series_term", ns.series_term), ("num", toString ns.num)] } {}

/-- call_report (lines 786-793): no try/except -- an exception from the
nested menu escapes.  Only an exact False return reprints the help and
continues; every other return value (True or a normal None return) makes
call_report return True. -/
def call_report (ext : Ext) (_other : List String) : HOut :=
  match ext.reportMenu with
  | .error e => { raised := some e }
  | .ok r => if r = some false then { printed := [helpText] } else { ret := some true }

/-- The TypeError text raised when the getattr fallback lambda (line 163),
which takes no parameters, is called with other_args. -/
def lambdaTypeError : String :=
  "TypeError: <lambda>() takes 0 positional arguments but 1 was given"

/-- The getattr dispatch of switch (lines 162-164) for a cmd that passed the
CHOICES check and is neither "?" nor "cls".  Any choice without a call_
method -- concretely "industry" -- falls to the lambda fallback, which is
then called with an argument and raises a TypeError. -/
def dispatchCmd (ext : Ext) (cmd : String) (other : List String) : HOut :=
  match cmd with
  | "help" => call_help ext other
  | "q" => call_q ext other
  | "quit" => call_quit ext other
  | "events" => call_events ext other
  | "feargreed" => call_feargreed ext other
  | "overview" => call_overview ext other
  | "indices" => call_indices ext other
  | "futures" => call_futures ext other
  | "usbonds" => call_usbonds ext other
  | "glbonds" => call_glbonds ext other
  | "currencies" => call_currencies ext other
  | "map" => call_map ext other
  | "valuation" => call_valuation ext other
  | "performance" => call_performance ext other
  | "spectrum" => call_spectrum ext other
  | "rtps" => call_rtps ext other
  | "series" => call_series ext other
  | "search" => call_search ext other
  | "report" => call_report ext other
  | _ => { raised := some lambdaTypeError }

/-- Outcome of one switch invocation as seen by the menu loop. -/
inductive Step where
  | cont
  | exitMenu
  | exitProgram
  | sysExit
  | raised (e : String)
  deriving DecidableEq

/-- Map a handler return value and escaped exception to the switch outcome:
None continues, False exits the menu, True exits the program. -/
def stepOf (h : HOut) : Step :=
  match h.raised with
  | some e => .raised e
  | none =>
      match h.ret with
      | none => .cont
      | some false => .exitMenu
      | some true => .exitProgram

/-- Observable result of one switch invocation. -/
structure SwitchOut where
  printed : List String := []
  collabCalls : List Collab := []
  removed : List String := []
  dispatched : Option String := none
  step : Step := .cont
  deriving DecidableEq

/-- EconomyController.switch (lines 134-164): empty input prints a blank
line and continues; otherwise the command parser runs (SystemExit on an
unregistered first token), "?" reprints the help, "cls" clears the screen,
and everything else dispatches through getattr. -/
def switch (ext : Ext) (an_input : String) : SwitchOut :=
  if an_input = "" then { printed := [""] }
  else
    match econParseCmd (tokenize an_input) with
    | none => { step := .sysExit }
    | some (cmd, other) =>
        if cmd = "?" then { printed := [helpText] }
        else if cmd = "cls" then {}
        else
          let h := dispatchCmd ext cmd other
          { printed := h.printed, collabCalls := h.collabCalls,
            removed := h.removed, dispatched := some cmd, step := stepOf h }

/-- Result of one iteration of the menu loop. -/
inductive LoopOut where
  | next (printed : List String)
  | done (b : Bool)
  | crashed (e : String)
  deriving DecidableEq

/-- One iteration of menu (lines 796-824): a non-None switch result is
returned to the caller, SystemExit is caught and reported and the loop
continues, any other exception escapes the loop (only SystemExit is
caught). -/
def menuStep (ext : Ext) (an_input : String) : LoopOut :=
  match (switch ext an_input).step with
  | .cont => .next (switch ext an_input).printed
  | .exitMenu => .done false
  | .exitProgram => .done true
  | .sysExit => .next ((switch ext an_input).printed ++
      ["The command selected doesn't exist\n"])
  | .raised e => .crashed e

/-- One level of submenu delegation: what an enclosing menu returns from its
call_report when the nested menu returned r (lines 786-793, 816-820): the
enclosing menu loop forwards the non-None handler return unchanged. -/
def reportPropagate (r : Option Bool) : Option Bool :=
  (call_report { collab := .ok (), reportMenu := .ok r } []).ret

/-- Environment with a succeeding collaborator and a report menu that exits
with ExitMenu. -/
def extOk : Ext := { collab := .ok (), reportMenu := .ok (some false) }

/-!
Embedding of gamestonk_terminal/options/yfinance_view.py.

Each plotting routine is modelled as the ordered list of its observable
operations.  Prices are rationals (the source compares floats against the
exact sentinel -1 and scales by the exact factors 0.75 and 1.25, so
rationals are a faithful carrier for everything the claims touch).
Dataframe contents are external collaborator data; the one data-dependent
branch, the emptiness test of the filtered frames in
plot_volume_open_interest, is supplied as an explicit parameter.
-/

/-- One observable operation of a plotting routine, in source order. -/
inductive PlotEvent where
  | fetchChain
  | exportReq (fmt : String) (basename : String)
  | rejectBothFlags
  | rejectEmpty
  | plotSeries (label : String)
  | currentPriceLine (price : ℚ)
  | maxPainLine (mp : ℚ)
  | gridOn
  | setXlabel
  | setYlabel
  | setXlim (lo hi : ℚ)
  | setTitle
  | legendOn
  | tightLayout
  | showFig
  deriving DecidableEq

/-- plot_oi (yfinance_view.py, lines 19-122): the option chain is fetched,
export_data is called at once (lines 48-53), then the strike window and the
calls_only/puts_only rejection are evaluated; the current-price line, the
max-pain line, the grid, the axis labels, the x-limits, the title, the
legend and the layout call are all inside the `if not puts_only` branch
(lines 94-118).  current_price and max_pain are collaborator-supplied. -/
def plot_oi (current_price max_pain min_sp max_sp : ℚ)
    (calls_only puts_only : Bool) (exportFmt : String) : List PlotEvent :=
  let min_strike := if min_sp = -1 then 3 / 4 * current_price else min_sp
  let max_strike := if max_sp = -1 then 5 / 4 * current_price else max_sp
  [PlotEvent.fetchChain, PlotEvent.exportReq exportFmt "oi_yf"] ++
  (if calls_only && puts_only then [PlotEvent.rejectBothFlags]
   else
     (if !calls_only then [PlotEvent.plotSeries "Puts"] else []) ++
     (if !puts_only then
        [PlotEvent.plotSeries "Calls",
         PlotEvent.currentPriceLine current_price,
         PlotEvent.maxPainLine max_pain, PlotEvent.gridOn,
         PlotEvent.setXlabel, PlotEvent.setYlabel,
         PlotEvent.setXlim min_strike max_strike, PlotEvent.setTitle,
         PlotEvent.legendOn, PlotEvent.tightLayout]
      else []) ++
     [PlotEvent.showFig])

/-- plot_vol (lines 125-218): same fetch/export/rejection structure, but the
current-price line, grid, labels, x-limits, title, legend and layout run in
every non-rejected case (lines 203-214), outside the two series branches. -/
def plot_vol (current_price min_sp max_sp : ℚ)
    (calls_only puts_only : Bool) (exportFmt : String) : List PlotEvent :=
  let min_strike := if min_sp = -1 then 3 / 4 * current_price else min_sp
  let max_strike := if max_sp = -1 then 5 / 4 * current_price else max_sp
  [PlotEvent.fetchChain, PlotEvent.exportReq exportFmt "vol_yf"] ++
  (if calls_only && puts_only then [PlotEvent.rejectBothFlags]
   else
     (if !calls_only then [PlotEvent.plotSeries "Puts"] else []) ++
     (if !puts_only then [PlotEvent.plotSeries "Calls"] else []) ++
     [PlotEvent.currentPriceLine current_price, PlotEvent.gridOn,
      PlotEvent.setXlabel, PlotEvent.setYlabel,
      PlotEvent.setXlim min_strike max_strike, PlotEvent.setTitle,
      PlotEvent.legendOn, PlotEvent.tightLayout, PlotEvent.showFig])

/-- plot_volume_open_interest (lines 221-405): fetch, immediate export_data
(lines 248-253), dataframe reshaping and filtering, then the emptiness
rejection (lines 312-316) and the drawing pipeline.  emptyAfterFilter
abstracts the pandas test df_calls.empty and df_puts.empty on the filtered
frames; min_vol, min_sp and max_sp shape only that filtering. -/
def plot_volume_open_interest (current_price max_pain min_sp max_sp min_vol : ℚ)
    (emptyAfterFilter : Bool) (exportFmt : String) : List PlotEvent :=
  [PlotEvent.fetchChain, PlotEvent.exportReq exportFmt "voi_yf"] ++
  (if emptyAfterFilter then [PlotEvent.rejectEmpty]
   else
     [PlotEvent.plotSeries "Calls: Open Interest",
      PlotEvent.plotSeries "Calls: Volume",
      PlotEvent.plotSeries "Puts: Open Interest",
      PlotEvent.plotSeries "Puts: Volume",
      PlotEvent.currentPriceLine current_price,
      PlotEvent.maxPainLine max_pain, PlotEvent.setTitle,
      PlotEvent.legendOn, PlotEvent.showFig])

/-- export_data writes a file exactly when the format selector is nonempty.
Modelled from the spec: export_data (helper_funcs, not in src/) is the
Export Sink of section 4.2, a no-op when the format is empty. -/
def isExportWrite : PlotEvent → Bool
  | .exportReq fmt _ => fmt != ""
  | _ => false

/-- A validation-rejection event of the plotting routines. -/
def isReject : PlotEvent → Bool
  | .rejectBothFlags => true
  | .rejectEmpty => true
  | _ => false

/-- Whether a writing export happens strictly before a validation rejection
in a trace. -/
def writeBeforeReject : List PlotEvent → Bool
  | [] => false
  | e :: rest => if isExportWrite e then rest.any isReject else writeBeforeReject rest

/-- Environment whose report menu raises an exception. -/
def extBoom : Ext := { collab := .ok (), reportMenu := .error "boom" }

/-- Environment whose report menu returns normally (Python None). -/
def extReportNone : Ext := { collab := .ok (), reportMenu := .ok none }

/-- The CHOICES_COMMANDS entries that have a call_ method, i.e. all of them
except "industry" (which has no handler and falls to the getattr lambda). -/
def WRAPPED_HANDLERS : List String :=
  ["feargreed", "events", "overview", "indices", "futures", "usbonds",
   "glbonds", "currencies", "search", "series", "valuation",
   "performance", "spectrum", "map", "rtps"]

/-
Helper lemmas shared by the claim theorems.
-/

theorem attemptCollab_raised_none (ext : Ext) (c : Collab) (after : HOut)
    (h : after.raised = none) : (attemptCollab ext c after).raised = none := by
  unfold attemptCollab
  cases ext.collab with
  | ok u => exact h
  | error e => rfl

theorem call_events_raised_none (ext : Ext) (args : List String) :
    (call_events ext args).raised = none := by
  unfold call_events
  cases parseEvents (implicitFirstToken "-c" args) with
  | none => rfl
  | some ns => exact attemptCollab_raised_none ext _ _ rfl

theorem call_feargreed_raised_none (ext : Ext) (args : List String) :
    (call_feargreed ext args).raised = none := by
  unfold call_feargreed
  cases parseFeargreed (implicitFirstToken "-i" args) with
  | none => rfl
  | some ns => exact attemptCollab_raised_none ext _ _ rfl

theorem exportOnlyHandler_raised_none (fn : String) (ext : Ext) (args : List String) :
    (exportOnlyHandler fn ext args).raised = none := by
  unfold exportOnlyHandler
  cases parseExportOnly args with
  | none => rfl
  | some ns => exact attemptCollab_raised_none ext _ _ rfl

theorem call_map_raised_none (ext : Ext) (args : List String) :
    (call_map ext args).raised = none := by
  unfold call_map
  cases parseMap args with
  | none => rfl
  | some ns => exact attemptCollab_raised_none ext _ _ rfl

theorem groupDataCall_raised_none (ext : Ext) (dataType exportArg : String)
    (ns : GroupNS) (afterOk : HOut) (h : afterOk.raised = none) :
    (groupDataCall ext dataType exportArg ns afterOk).raised = none := by
  unfold groupDataCall
  cases d_GROUPS.lookup ns.group with
  | none => rfl
  | some title => exact attemptCollab_raised_none ext _ _ h

theorem call_valuation_raised_none (ext : Ext) (args : List String) :
    (call_valuation ext args).raised = none := by
  unfold call_valuation
  cases parseGroup "Sector" tabularExports (groupPreprocess args) with
  | none => rfl
  | some ns => exact groupDataCall_raised_none ext _ _ _ _ rfl

theorem call_performance_raised_none (ext : Ext) (args : List String) :
    (call_performance ext args).raised = none := by
  unfold call_performance
  cases parseGroup "Sector" tabularExports (groupPreprocess args) with
  | none => rfl
  | some ns => exact groupDataCall_raised_none ext _ _ _ _ rfl

theorem call_spectrum_raised_none (ext : Ext) (args : List String) :
    (call_spectrum ext args).raised = none := by
  unfold call_spectrum
  cases parseGroup "sector" imageExports (groupPreprocess args) with
  | none => rfl
  | some ns => exact groupDataCall_raised_none ext _ _ _ _ rfl

theorem call_rtps_raised_none (ext : Ext) (args : List String) :
    (call_rtps ext args).raised = none := by
  unfold call_rtps
  cases parseRtps (rtpsExportChoices args) args with
  | none => rfl
  | some ns => exact attemptCollab_raised_none ext _ _ rfl

theorem call_series_raised_none (ext : Ext) (args : List String) :
    (call_series ext args).raised = none := by
  unfold call_series
  cases parseSeries (seriesExportChoices args) (implicitFirstToken "-i" args) with
  | none => rfl
  | some ns => exact attemptCollab_raised_none ext _ _ rfl

theorem call_search_raised_none (ext : Ext) (args : List String) :
    (call_search ext args).raised = none := by
  unfold call_search
  cases parseSearch (implicitFirstToken "-s" args) with
  | none => rfl
  | some ns => exact attemptCollab_raised_none ext _ _ rfl

theorem tokenize_empty : tokenize "" = [] := by decide

theorem optionLike_of_no_dash (t : String) (h : containsDash t = false) :
    optionLike t = false := by
  unfold containsDash at h
  unfold optionLike
  rcases hd : t.data with _ | ⟨c, cs⟩
  · rfl
  · rw [hd] at h
    by_cases hc : c = '-'
    · subst hc
      simp at h
    · simp [hc]

theorem implicitFirstToken_shape (flag : String) (l : List String) :
    implicitFirstToken flag l = l ∨ implicitFirstToken flag l = flag :: l := by
  rcases l with _ | ⟨t, rest⟩
  · exact Or.inl rfl
  · by_cases h : containsDash t = true
    · exact Or.inl (by simp [implicitFirstToken, h])
    · exact Or.inr (by simp [implicitFirstToken, h])

theorem parseEventsAux_fails_at (f v : String)
    (hfc : f ∉ eventsCountries) (hfi : f ∉ eventsImpacts) (hfe : f ∉ tabularExports)
    (hfp : check_positive f = none)
    (hbase : ∀ (post : List String) (ns : EventsNS),
      parseEventsAux (f :: v :: post) ns = none) :
    ∀ (n : ℕ) (pre post : List String) (ns : EventsNS), pre.length ≤ n →
      parseEventsAux (pre ++ f :: v :: post) ns = none := by
  intro n
  induction n with
  | zero =>
      intro pre post ns hl
      have hpre : pre = [] := List.eq_nil_of_length_eq_zero (Nat.le_zero.mp hl)
      subst hpre
      exact hbase post ns
  | succ k ih =>
      intro pre post ns hl
      rcases pre with _ | ⟨t, pre1⟩
      · exact hbase post ns
      · rcases pre1 with _ | ⟨w, pre2⟩
        · simp only [List.cons_append, List.nil_append]
          simp only [parseEventsAux]
          by_cases h1 : t = "-c" ∨ t = "--country"
          · simp [h1, hfc]
          · rw [if_neg h1]
            by_cases h2 : t = "-n" ∨ t = "--num"
            · simp [h2, hfp]
            · rw [if_neg h2]
              by_cases h3 : t = "-i" ∨ t = "--impact"
              · simp [h3, hfi]
              · rw [if_neg h3]
                by_cases h4 : t = "--export"
                · simp [h4, hfe]
                · rw [if_neg h4]
        · simp only [List.cons_append]
          simp only [parseEventsAux]
          by_cases h1 : t = "-c" ∨ t = "--country"
          · rw [if_pos h1]
            by_cases hw : w ∈ eventsCountries
            · simp only [hw, if_true]
              exact ih pre2 post _ (by simp at hl; omega)
            · simp [hw]
          · rw [if_neg h1]
            by_cases h2 : t = "-n" ∨ t = "--num"
            · rw [if_pos h2]
              rcases hcw : check_positive w with _ | m
              · simp [hcw]
              · simp only [hcw]
                exact ih pre2 post _ (by simp at hl; omega)
            · rw [if_neg h2]
              by_cases h3 : t = "-i" ∨ t = "--impact"
              · rw [if_pos h3]
                by_cases hw : w ∈ eventsImpacts
                · simp only [hw, if_true]
                  exact ih pre2 post _ (by simp at hl; omega)
                · simp [hw]
              · rw [if_neg h3]
                by_cases h4 : t = "--export"
                · rw [if_pos h4]
                  by_cases hw : w ∈ tabularExports
                  · simp only [hw, if_true]
                    exact ih pre2 post _ (by simp at hl; omega)
                  · simp [hw]
                · rw [if_neg h4]

theorem parseSearchAux_fails_at (f v : String)
    (hfo : optionLike f = true) (hfp : check_positive f = none)
    (hbase : ∀ (post : List String) (acc : SearchAcc),
      parseSearchAux (f :: v :: post) acc = none) :
    ∀ (n : ℕ) (pre post : List String) (acc : SearchAcc), pre.length ≤ n →
      parseSearchAux (pre ++ f :: v :: post) acc = none := by
  intro n
  induction n with
  | zero =>
      intro pre post acc hl
      have hpre : pre = [] := List.eq_nil_of_length_eq_zero (Nat.le_zero.mp hl)
      subst hpre
      exact hbase post acc
  | succ k ih =>
      intro pre post acc hl
      rcases pre with _ | ⟨t, pre1⟩
      · exact hbase post acc
      · rcases pre1 with _ | ⟨w, pre2⟩
        · simp only [List.cons_append, List.nil_append]
          simp only [parseSearchAux]
          by_cases h1 : t = "-s" ∨ t = "--series"
          · simp [h1, hfo]
          · rw [if_neg h1]
            by_cases h2 : t = "-n" ∨ t = "--num"
            · simp [h2, hfp]
            · rw [if_neg h2]
        · simp only [List.cons_append]
          simp only [parseSearchAux]
          by_cases h1 : t = "-s" ∨ t = "--series"
          · rw [if_pos h1]
            by_cases hw : optionLike w = true
            · simp [hw]
            · simp only [hw, Bool.false_eq_true, if_false]
              exact ih pre2 post _ (by simp at hl; omega)
          · rw [if_neg h1]
            by_cases h2 : t = "-n" ∨ t = "--num"
            · rw [if_pos h2]
              rcases hcw : check_positive w with _ | m
              · simp [hcw]
              · simp only [hcw]
                exact ih pre2 post _ (by simp at hl; omega)
            · rw [if_neg h2]

theorem parseSeriesAux_fails_at (exports : List String) (f v : String)
    (hfo : optionLike f = true) (hfd : valid_date f = false) (hfe : f ∉ exports)
    (hbase : ∀ (post : List String) (acc : SeriesAcc),
      parseSeriesAux exports (f :: v :: post) acc = none) :
    ∀ (n : ℕ) (pre post : List String) (acc : SeriesAcc), pre.length ≤ n →
      parseSeriesAux exports (pre ++ f :: v :: post) acc = none := by
  intro n
  induction n with
  | zero =>
      intro pre post acc hl
      have hpre : pre = [] := List.eq_nil_of_length_eq_zero (Nat.le_zero.mp hl)
      subst hpre
      exact hbase post acc
  | succ k ih =>
      intro pre post acc hl
      rcases pre with _ | ⟨t, pre1⟩
      · exact hbase post acc
      · rcases pre1 with _ | ⟨w, pre2⟩
        · simp only [List.cons_append, List.nil_append]
          simp only [parseSeriesAux]
          by_cases h1 : t = "-i" ∨ t = "--id"
          · simp [h1, hfo]
          · rw [if_neg h1]
            by_cases h2 : t = "-s"
            · simp [h2, hfd]
            · rw [if_neg h2]
              by_cases h3 : t = "--raw"
              · rw [if_pos h3]
                have hb := hbase post { acc with raw := true }
                simp only [parseSeriesAux] at hb
                exact hb
              · rw [if_neg h3]
                by_cases h4 : t = "--export"
                · simp [h4, hfe]
                · rw [if_neg h4]
        · simp only [List.cons_append]
          simp only [parseSeriesAux]
          by_cases h1 : t = "-i" ∨ t = "--id"
          · rw [if_pos h1]
            by_cases hw : optionLike w = true
            · simp [hw]
            · simp only [hw, Bool.false_eq_true, if_false]
              exact ih pre2 post _ (by simp at hl; omega)
          · rw [if_neg h1]
            by_cases h2 : t = "-s"
            · rw [if_pos h2]
              by_cases hw : valid_date w = true
              · simp only [hw, if_true]
                exact ih pre2 post _ (by simp at hl; omega)
              · simp [hw]
            · rw [if_neg h2]
              by_cases h3 : t = "--raw"
              · rw [if_pos h3]
                show parseSeriesAux exports ((w :: pre2) ++ f :: v :: post) _ = none
                exact ih (w :: pre2) post _ (by simp at hl ⊢; omega)
              · rw [if_neg h3]
                by_cases h4 : t = "--export"
                · rw [if_pos h4]
                  by_cases hw : w ∈ exports
                  · simp only [hw, if_true]
                    exact ih pre2 post _ (by simp at hl; omega)
                  · simp [hw]
                · rw [if_neg h4]

theorem call_events_malformed (ext : Ext) (f v : String) (pre post : List String)
    (hfc : f ∉ eventsCountries) (hfi : f ∉ eventsImpacts) (hfe : f ∉ tabularExports)
    (hfp : check_positive f = none)
    (hbase : ∀ (post2 : List String) (ns : EventsNS),
      parseEventsAux (f :: v :: post2) ns = none) :
    call_events ext (pre ++ f :: v :: post) = { printed := [validatorDiagnostic] } := by
  have hp : parseEvents (implicitFirstToken "-c" (pre ++ f :: v :: post)) = none := by
    unfold parseEvents
    rcases implicitFirstToken_shape "-c" (pre ++ f :: v :: post) with hsh | hsh <;> rw [hsh]
    · exact parseEventsAux_fails_at f v hfc hfi hfe hfp hbase pre.length pre post {} le_rfl
    · show parseEventsAux (("-c" :: pre) ++ f :: v :: post) {} = none
      exact parseEventsAux_fails_at f v hfc hfi hfe hfp hbase
        ("-c" :: pre).length _ post {} le_rfl
  unfold call_events
  rw [hp]

theorem call_search_malformed (ext : Ext) (f v : String) (pre post : List String)
    (hfo : optionLike f = true) (hfp : check_positive f = none)
    (hbase : ∀ (post2 : List String) (acc : SearchAcc),
      parseSearchAux (f :: v :: post2) acc = none) :
    call_search ext (pre ++ f :: v :: post) = { printed := [validatorDiagnostic] } := by
  have haux : parseSearchAux (implicitFirstToken "-s" (pre ++ f :: v :: post))
      ({} : SearchAcc) = none := by
    rcases implicitFirstToken_shape "-s" (pre ++ f :: v :: post) with hsh | hsh <;> rw [hsh]
    · exact parseSearchAux_fails_at f v hfo hfp hbase pre.length pre post {} le_rfl
    · show parseSearchAux (("-s" :: pre) ++ f :: v :: post) {} = none
      exact parseSearchAux_fails_at f v hfo hfp hbase ("-s" :: pre).length _ post {} le_rfl
  have hp : parseSearch (implicitFirstToken "-s" (pre ++ f :: v :: post)) = none := by
    unfold parseSearch
    rw [haux]
  unfold call_search
  rw [hp]

theorem seriesExportChoices_no_flag (args : List String) :
    "-s" ∉ seriesExportChoices args := by
  unfold seriesExportChoices
  by_cases h : "--raw" ∈ args
  · rw [if_pos h]; decide
  · rw [if_neg h]; decide

theorem call_series_malformed (ext : Ext) (d : String) (pre post : List String)
    (hd : valid_date d = false) :
    call_series ext (pre ++ "-s" :: d :: post) = { printed := [validatorDiagnostic] } := by
  have hbase : ∀ (post2 : List String) (acc : SeriesAcc),
      parseSeriesAux (seriesExportChoices (pre ++ "-s" :: d :: post))
        ("-s" :: d :: post2) acc = none := by
    intro post2 acc
    simp [parseSeriesAux, hd]
  have haux : parseSeriesAux (seriesExportChoices (pre ++ "-s" :: d :: post))
      (implicitFirstToken "-i" (pre ++ "-s" :: d :: post)) ({} : SeriesAcc) = none := by
    rcases implicitFirstToken_shape "-i" (pre ++ "-s" :: d :: post) with hsh | hsh <;> rw [hsh]
    · exact parseSeriesAux_fails_at _ "-s" d (by decide) (by decide)
        (seriesExportChoices_no_flag _) hbase pre.length pre post {} le_rfl
    · show parseSeriesAux _ (("-i" :: pre) ++ "-s" :: d :: post) {} = none
      exact parseSeriesAux_fails_at _ "-s" d (by decide) (by decide)
        (seriesExportChoices_no_flag _) hbase ("-i" :: pre).length _ post {} le_rfl
  have hp : parseSeries (seriesExportChoices (pre ++ "-s" :: d :: post))
      (implicitFirstToken "-i" (pre ++ "-s" :: d :: post)) = none := by
    unfold parseSeries
    rw [haux]
  unfold call_series
  rw [hp]

/-
Claim theorems.
-/

/-- C2 counterexample: when the nested report menu returns normally (Python
None), call_report does not reprint the help and stay active; it returns
True, so the whole economy menu exits with ExitProgram. -/
theorem c2_report_normal_return_counterexample :
    call_report extReportNone [] = { ret := some true } ∧
    (call_report extReportNone []).printed = [] ∧
    menuStep extReportNone "report" = .done true := by
  decide

/-- C2 (amended): call_report propagates ExitProgram when the nested report
menu returns ExitProgram; it reprints the help text and stays active
exactly when the nested menu returns the ExitMenu value False; on a normal
(None) return it also returns True, propagating ExitProgram. -/
theorem c2_report_delegation (ext : Ext) :
    (ext.reportMenu = .ok (some true) →
      call_report ext [] = { ret := some true }) ∧
    (ext.reportMenu = .ok (some false) →
      call_report ext [] = { printed := [helpText] } ∧
      stepOf (call_report ext []) = Step.cont) ∧
    (ext.reportMenu = .ok none →
      call_report ext [] = { ret := some true }) := by
  refine ⟨fun h => ?_, fun h => ?_, fun h => ?_⟩ <;>
    simp [call_report, h, stepOf]

/-- C2 witness: the nested menu exits with ExitMenu and the help is
reprinted while the menu stays active. -/
theorem c2_report_delegation_witness :
    extOk.reportMenu = .ok (some false) ∧
    (call_report extOk [] = { printed := [helpText] } ∧
     stepOf (call_report extOk []) = Step.cont) :=
  ⟨rfl, (c2_report_delegation extOk).2.1 rfl⟩

/-- C3 counterexample: plot_oi with export csv and both calls_only and
puts_only set performs the export write immediately after the fetch and
before the validation rejection, and plot_volume_open_interest likewise
writes before its emptiness rejection -- the export is not constructed
immediately before the handler finishes. -/
theorem c3_export_before_validation_counterexample :
    plot_oi 100 100 (-1) (-1) true true "csv" =
      [.fetchChain, .exportReq "csv" "oi_yf", .rejectBothFlags] ∧
    writeBeforeReject (plot_oi 100 100 (-1) (-1) true true "csv") = true ∧
    writeBeforeReject
      (plot_volume_open_interest 100 100 (-1) (-1) (-1) true "csv") = true := by
  decide

/-- C3 (amended): in plot_oi, plot_vol and plot_volume_open_interest the
ExportRequest is constructed and consumed at the start of the handler,
immediately after the option-chain fetch and before the validation checks
and the reshaping/plotting work; in particular the export also happens when
the handler then rejects its inputs. -/
theorem c3_export_at_start (p mp a b c : ℚ) (co po empty : Bool) (e : String) :
    (plot_oi p mp a b co po e).take 2 = [.fetchChain, .exportReq e "oi_yf"] ∧
    (plot_vol p a b co po e).take 2 = [.fetchChain, .exportReq e "vol_yf"] ∧
    (plot_volume_open_interest p mp a b c empty e).take 2 =
      [.fetchChain, .exportReq e "voi_yf"] ∧
    plot_oi p mp a b true true e =
      [.fetchChain, .exportReq e "oi_yf", .rejectBothFlags] ∧
    plot_vol p a b true true e =
      [.fetchChain, .exportReq e "vol_yf", .rejectBothFlags] ∧
    plot_volume_open_interest p mp a b c true e =
      [.fetchChain, .exportReq e "voi_yf", .rejectEmpty] := by
  refine ⟨?_, ?_, ?_, ?_, ?_, ?_⟩ <;>
    simp [plot_oi, plot_vol, plot_volume_open_interest]

/-- C4: for every successful spectrum invocation (validation succeeded, the
collaborator call did not raise) the Finviz collaborator is called with the
mapped group title, data_type spectrum and an empty export format -- the
parsed --export value is never forwarded to the export sink -- and
afterwards the file named after the raw group key with extension .jpg is
removed from the working directory. -/
theorem c4_spectrum_effects (ext : Ext) (other : List String) (ns : GroupNS)
    (title : String)
    (hp : parseGroup "sector" imageExports (groupPreprocess other) = some ns)
    (ht : d_GROUPS.lookup ns.group = some title)
    (hc : ext.collab = .ok ()) :
    call_spectrum ext other =
      { collabCalls := [{ fn := "finviz_view.view_group_data",
                          args := [("s_group", title), ("data_type", "spectrum"),
                                   ("export", "")] }],
        removed := [ns.group ++ ".jpg"] } := by
  unfold call_spectrum
  rw [hp]
  show groupDataCall ext "spectrum" "" ns { removed := [ns.group ++ ".jpg"] } = _
  unfold groupDataCall
  rw [ht]
  unfold attemptCollab
  rw [hc]

/-- C4 witness: a spectrum invocation carrying the validated export value
png still reaches the collaborator with an empty export and then removes
sector.jpg. -/
theorem c4_spectrum_effects_witness :
    parseGroup "sector" imageExports (groupPreprocess ["--export", "png"]) =
      some { group := "sector", exportFmt := "png" } ∧
    d_GROUPS.lookup "sector" = some "Sector" ∧
    extOk.collab = .ok () ∧
    call_spectrum extOk ["--export", "png"] =
      { collabCalls := [{ fn := "finviz_view.view_group_data",
                          args := [("s_group", "Sector"), ("data_type", "spectrum"),
                                   ("export", "")] }],
        removed := ["sector.jpg"] } :=
  ⟨by decide, by decide, rfl,
   c4_spectrum_effects extOk ["--export", "png"]
     { group := "sector", exportFmt := "png" } "Sector"
     (by decide) (by decide) rfl⟩

/-- C5 counterexample: the first token "GDP-X" is not flag-prefixed, yet the
series shorthand does not assign it to the primary -i flag, because the
source tests substring containment of "-" rather than a flag prefix; the
resulting parse is rejected rather than accepted. -/
theorem c5_shorthand_counterexample :
    flagPrefixed "GDP-X" = false ∧
    implicitFirstToken "-i" ["GDP-X"] = ["GDP-X"] ∧
    call_series extOk ["GDP-X"] = { printed := [validatorDiagnostic] } := by
  decide

/-- C5 (amended): the shorthand fires exactly when the first token contains
no "-" character anywhere (not merely when it is not flag-prefixed): in that
case the primary short flag is prepended before parsing -- -c for events,
-i for feargreed and series, -g for valuation, performance and spectrum,
-s for search -- and the result is accepted whenever the token meets the
flag constraints, as with a bare series id or a bare search term. -/
theorem c5_implicit_first_token (t : String) (rest : List String)
    (h : containsDash t = false) :
    implicitFirstToken "-c" (t :: rest) = "-c" :: t :: rest ∧
    implicitFirstToken "-i" (t :: rest) = "-i" :: t :: rest ∧
    groupPreprocess (t :: rest) = joinTail ("-g" :: t :: rest) ∧
    implicitFirstToken "-s" (t :: rest) = "-s" :: t :: rest ∧
    parseSeries (seriesExportChoices [t]) (implicitFirstToken "-i" [t]) =
      some { series_id := t } ∧
    parseSearch (implicitFirstToken "-s" [t]) = some { series_term := t } := by
  have hopt : optionLike t = false := optionLike_of_no_dash t h
  refine ⟨?_, ?_, ?_, ?_, ?_, ?_⟩ <;>
    simp [implicitFirstToken, groupPreprocess, h, hopt, parseSeries, parseSeriesAux,
      parseSearch, parseSearchAux]

/-- C5 witness at the bare token "GDP". -/
theorem c5_implicit_first_token_witness :
    containsDash "GDP" = false ∧
    (implicitFirstToken "-c" ["GDP"] = ["-c", "GDP"] ∧
     implicitFirstToken "-i" ["GDP"] = ["-i", "GDP"] ∧
     groupPreprocess ["GDP"] = joinTail ["-g", "GDP"] ∧
     implicitFirstToken "-s" ["GDP"] = ["-s", "GDP"] ∧
     parseSeries (seriesExportChoices ["GDP"]) (implicitFirstToken "-i" ["GDP"]) =
       some { series_id := "GDP" } ∧
     parseSearch (implicitFirstToken "-s" ["GDP"]) = some { series_term := "GDP" }) :=
  ⟨by decide, c5_implicit_first_token "GDP" [] (by decide)⟩

/-- C6: for rtps and series the --export choices are the tabular set exactly
when the --raw token is present in the argument list and the image set
otherwise, and the scenario input "series -i GDP -s 2020-01-01 --raw"
dispatches to the series handler with series_id GDP, start_date 2020-01-01,
raw True and tabular-only export choices. -/
theorem c6_conditional_export_choices (a1 a2 : List String)
    (h1 : "--raw" ∈ a1) (h2 : "--raw" ∉ a2) :
    rtpsExportChoices a1 = ["csv", "json", "xlsx"] ∧
    seriesExportChoices a1 = ["csv", "json", "xlsx"] ∧
    rtpsExportChoices a2 = ["png", "jpg", "pdf", "svg"] ∧
    seriesExportChoices a2 = ["png", "jpg", "pdf", "svg"] ∧
    seriesExportChoices ["-i", "GDP", "-s", "2020-01-01", "--raw"] =
      ["csv", "json", "xlsx"] ∧
    switch extOk "series -i GDP -s 2020-01-01 --raw" =
      { collabCalls := [{ fn := "fred_view.display_series",
                          args := [("series", "GDP"), ("start_date", "2020-01-01"),
                                   ("raw", "True"), ("export", "")] }],
        dispatched := some "series", step := Step.cont } := by
  refine ⟨?_, ?_, ?_, ?_, by decide, by decide⟩ <;>
    simp [rtpsExportChoices, seriesExportChoices, tabularExports, imageExports, h1, h2]

/-- C6 witness at the concrete lists containing and lacking --raw. -/
theorem c6_conditional_export_choices_witness :
    "--raw" ∈ ["--raw"] ∧ "--raw" ∉ ([] : List String) ∧
    (rtpsExportChoices ["--raw"] = ["csv", "json", "xlsx"] ∧
     seriesExportChoices ["--raw"] = ["csv", "json", "xlsx"] ∧
     rtpsExportChoices [] = ["png", "jpg", "pdf", "svg"] ∧
     seriesExportChoices [] = ["png", "jpg", "pdf", "svg"] ∧
     seriesExportChoices ["-i", "GDP", "-s", "2020-01-01", "--raw"] =
       ["csv", "json", "xlsx"] ∧
     switch extOk "series -i GDP -s 2020-01-01 --raw" =
       { collabCalls := [{ fn := "fred_view.display_series",
                           args := [("series", "GDP"), ("start_date", "2020-01-01"),
                                    ("raw", "True"), ("export", "")] }],
         dispatched := some "series", step := Step.cont }) :=
  ⟨by decide, by decide,
   c6_conditional_export_choices ["--raw"] [] (by decide) (by decide)⟩

/-- C7 counterexample: the report submenu handler has no try/except -- an
exception raised by the nested report menu escapes call_report, and since
the menu loop catches only SystemExit, it terminates the loop, contradicting
the claim that every handler failure is caught and non-fatal. -/
theorem c7_report_uncaught_counterexample :
    (call_report extBoom []).raised = some "boom" ∧
    menuStep extBoom "report" = .crashed "boom" := by
  decide

/-- C7 (amended): every domain data-command handler (all of CHOICES_COMMANDS
with a call_ method) wraps its work in a catch-all, so no exception escapes
it; the one exception is the report submenu handler, which has no such
wrapper -- an exception from the nested report menu escapes it and, because
the loop catches only SystemExit, terminates the menu loop. -/
theorem c7_handler_exception_boundary (ext : Ext) (args : List String)
    (cmd : String) (e : String)
    (h1 : cmd ∈ WRAPPED_HANDLERS) (h2 : ext.reportMenu = .error e) :
    (dispatchCmd ext cmd args).raised = none ∧
    (call_report ext args).raised = some e ∧
    menuStep ext "report" = .crashed e := by
  refine ⟨?_, ?_, ?_⟩
  · fin_cases h1
    · exact call_feargreed_raised_none ext args
    · exact call_events_raised_none ext args
    · exact exportOnlyHandler_raised_none _ ext args
    · exact exportOnlyHandler_raised_none _ ext args
    · exact exportOnlyHandler_raised_none _ ext args
    · exact exportOnlyHandler_raised_none _ ext args
    · exact exportOnlyHandler_raised_none _ ext args
    · exact exportOnlyHandler_raised_none _ ext args
    · exact call_search_raised_none ext args
    · exact call_series_raised_none ext args
    · exact call_valuation_raised_none ext args
    · exact call_performance_raised_none ext args
    · exact call_spectrum_raised_none ext args
    · exact call_map_raised_none ext args
    · exact call_rtps_raised_none ext args
  · unfold call_report
    rw [h2]
  · have hr : call_report ext ([] : List String) = { raised := some e } := by
      unfold call_report
      rw [h2]
    have hstep : (switch ext "report").step = Step.raised e := by
      show stepOf (call_report ext []) = Step.raised e
      rw [hr]
      rfl
    simp [menuStep, hstep]

/-- C7 witness: the events handler swallows nothing into the loop even in
the environment whose report menu raises, while the report command crashes
the loop there. -/
theorem c7_handler_exception_boundary_witness :
    "events" ∈ WRAPPED_HANDLERS ∧ extBoom.reportMenu = .error "boom" ∧
    ((dispatchCmd extBoom "events" ["-c", "US"]).raised = none ∧
     (call_report extBoom ["-c", "US"]).raised = some "boom" ∧
     menuStep extBoom "report" = .crashed "boom") :=
  ⟨by decide, rfl,
   c7_handler_exception_boundary extBoom ["-c", "US"] "events" "boom"
     (by decide) rfl⟩

/-- C8: for the typed flags of the command table -- the positive-integer
flags of events and search (both spellings) and the date flag of series --
a malformed value anywhere in the argument list makes the validator reject
the input with a diagnostic, the handler returns the continue value with no
collaborator call, and for any input line that the command parser resolves
to the events command with such an argument list, the menu loop prints the
diagnostic and stays active, accepting the next line. -/
theorem c8_malformed_typed_flag (ext : Ext) (v d sIn : String)
    (pre1 post1 pre2 post2 pre3 post3 : List String)
    (hv : check_positive v = none) (hd : valid_date d = false)
    (heP : econParseCmd (tokenize sIn) = some ("events", pre1 ++ "-n" :: v :: post1)) :
    call_events ext (pre1 ++ "-n" :: v :: post1) = { printed := [validatorDiagnostic] } ∧
    call_events ext (pre1 ++ "--num" :: v :: post1) = { printed := [validatorDiagnostic] } ∧
    call_search ext (pre2 ++ "-n" :: v :: post2) = { printed := [validatorDiagnostic] } ∧
    call_search ext (pre2 ++ "--num" :: v :: post2) = { printed := [validatorDiagnostic] } ∧
    call_series ext (pre3 ++ "-s" :: d :: post3) = { printed := [validatorDiagnostic] } ∧
    menuStep ext sIn = LoopOut.next [validatorDiagnostic] := by
  have hbE1 : ∀ (post : List String) (ns : EventsNS),
      parseEventsAux ("-n" :: v :: post) ns = none := by
    intro post ns
    simp [parseEventsAux, hv]
  have hbE2 : ∀ (post : List String) (ns : EventsNS),
      parseEventsAux ("--num" :: v :: post) ns = none := by
    intro post ns
    simp [parseEventsAux, hv]
  have hbS1 : ∀ (post : List String) (acc : SearchAcc),
      parseSearchAux ("-n" :: v :: post) acc = none := by
    intro post acc
    simp [parseSearchAux, hv]
  have hbS2 : ∀ (post : List String) (acc : SearchAcc),
      parseSearchAux ("--num" :: v :: post) acc = none := by
    intro post acc
    simp [parseSearchAux, hv]
  have hE1 := call_events_malformed ext "-n" v pre1 post1
    (by decide) (by decide) (by decide) (by decide) hbE1
  have hE2 := call_events_malformed ext "--num" v pre1 post1
    (by decide) (by decide) (by decide) (by decide) hbE2
  have hS1 := call_search_malformed ext "-n" v pre2 post2 (by decide) (by decide) hbS1
  have hS2 := call_search_malformed ext "--num" v pre2 post2 (by decide) (by decide) hbS2
  have hSer := call_series_malformed ext d pre3 post3 hd
  have hLoop : menuStep ext sIn = LoopOut.next [validatorDiagnostic] := by
    have hs : sIn ≠ "" := by
      intro hse
      rw [hse, tokenize_empty] at heP
      exact Option.noConfusion heP
    have hsw : switch ext sIn =
        { printed := [validatorDiagnostic], dispatched := some "events",
          step := Step.cont } := by
      simp [switch, hs, heP, dispatchCmd, hE1, stepOf]
    simp [menuStep, hsw]
  exact ⟨hE1, hE2, hS1, hS2, hSer, hLoop⟩

/-- C8 witness at the malformed number "0" and the malformed date "pizza". -/
theorem c8_malformed_typed_flag_witness :
    check_positive "0" = none ∧ valid_date "pizza" = false ∧
    econParseCmd (tokenize "events -n 0") = some ("events", ["-n", "0"]) ∧
    (call_events extOk ["-n", "0"] = { printed := [validatorDiagnostic] } ∧
     call_events extOk ["--num", "0"] = { printed := [validatorDiagnostic] } ∧
     call_search extOk ["-n", "0"] = { printed := [validatorDiagnostic] } ∧
     call_search extOk ["--num", "0"] = { printed := [validatorDiagnostic] } ∧
     call_series extOk ["-s", "pizza"] = { printed := [validatorDiagnostic] } ∧
     menuStep extOk "events -n 0" = LoopOut.next [validatorDiagnostic]) :=
  ⟨by decide, by decide, by decide,
   c8_malformed_typed_flag extOk "0" "pizza" "events -n 0" [] [] [] [] [] []
     (by decide) (by decide) (by decide)⟩

/-- C9: q always yields ExitMenu (switch returns False) and quit always
yields ExitProgram (switch returns True) -- there is no other menu state
for them to depend on -- and an ExitProgram outcome propagates unchanged
through any number of nested report-style menu delegations. -/
theorem c9_quit_directives (ext : Ext) (n : ℕ) :
    (switch ext "q").step = Step.exitMenu ∧
    (switch ext "quit").step = Step.exitProgram ∧
    menuStep ext "q" = .done false ∧
    menuStep ext "quit" = .done true ∧
    reportPropagate^[n] (some true) = some true := by
  refine ⟨rfl, rfl, rfl, rfl, ?_⟩
  induction n with
  | zero => rfl
  | succ k ih =>
      rw [Function.iterate_succ_apply', ih]
      rfl

/-- C10: plot_oi called with puts_only and without calls_only draws only the
puts series -- no current-price line, max-pain line, grid, axis labels,
x-limits or title, all of which are gated on puts_only being false --
while plot_vol with the same flags still draws the current-price line and
configures the axes. -/
theorem c10_puts_only_draws_puts_only (p mp min_sp max_sp : ℚ) (e : String) :
    plot_oi p mp min_sp max_sp false true e =
      [.fetchChain, .exportReq e "oi_yf", .plotSeries "Puts", .showFig] ∧
    (∀ lo hi, PlotEvent.setXlim lo hi ∉ plot_oi p mp min_sp max_sp false true e) ∧
    PlotEvent.currentPriceLine p ∉ plot_oi p mp min_sp max_sp false true e ∧
    PlotEvent.maxPainLine mp ∉ plot_oi p mp min_sp max_sp false true e ∧
    PlotEvent.gridOn ∉ plot_oi p mp min_sp max_sp false true e ∧
    PlotEvent.setXlabel ∉ plot_oi p mp min_sp max_sp false true e ∧
    PlotEvent.setYlabel ∉ plot_oi p mp min_sp max_sp false true e ∧
    PlotEvent.setTitle ∉ plot_oi p mp min_sp max_sp false true e ∧
    plot_vol p min_sp max_sp false true e =
      [.fetchChain, .exportReq e "vol_yf", .plotSeries "Puts",
       .currentPriceLine p, .gridOn, .setXlabel, .setYlabel,
       .setXlim (if min_sp = -1 then 3 / 4 * p else min_sp)
         (if max_sp = -1 then 5 / 4 * p else max_sp),
       .setTitle, .legendOn, .tightLayout, .showFig] := by
  refine ⟨?_, ?_, ?_, ?_, ?_, ?_, ?_, ?_, ?_⟩ <;>
    simp [plot_oi, plot_vol]

end Gamestonk
